import Mathlib

/-!
Verification of the UPnP/IGD comprehensive-check subsystem of the
node-checker-IGD repository (platforms/linux-checks.js and
platforms/windows-checks.js), as a shallow embedding in Lean.

Modelling conventions:
* JavaScript objects holding diagnostic details are modelled as association
  lists with JS assignment semantics (`dset` updates an existing key in place,
  otherwise appends; `dget` looks a key up).
* `execPromise` invocations and protocol-client callbacks are oracles supplied
  by an environment structure: `Except.error e` models a rejected promise
  (caught by the corresponding JS catch block with message `e`),
  `Except.ok out` a resolved one with stdout `out`.
* Each probe returns its result together with a trace of the externally
  observable operations it attempted (helper-process invocations and protocol
  client calls), so that claims about operations never being attempted, or
  about the client being closed, are statable.
-/

/-- Status enum of a probe result, as the string statuses used in the code. -/
inductive Status
  | PASS
  | PARTIAL_PASS
  | FAIL
  | MISSING_DEPENDENCY
  | UNKNOWN
deriving DecidableEq, Repr

/-- Diagnostic details object: association list with JS object semantics. -/
abbrev Details := List (String × String)

/-- JS property assignment `d.k = v`: update the existing entry in place, or
append a new one. -/
def dset : Details → String → String → Details
  | [], k, v => [(k, v)]
  | (k0, v0) :: rest, k, v =>
      if k0 == k then (k0, v) :: rest else (k0, v0) :: dset rest k v

/-- JS property read `d.k`. -/
def dget : Details → String → Option String
  | [], _ => none
  | (k0, v0) :: rest, k => if k0 == k then some v0 else dget rest k

/-- Whether a key is present in a details object. -/
def dhas (d : Details) (k : String) : Bool := (dget d k).isSome

/-- JS object spread merge of two details objects: start from `a`, assign every
entry of `b` in order (matching the semantics of the spread in
`checkLinuxUPnPComprehensive`). -/
def dmerge (a b : Details) : Details :=
  b.foldl (fun acc p => dset acc p.1 p.2) a

/-- JS truthy-or-else on optional strings, modelling the `x || y` idiom where
`none` stands for a falsy (null/undefined/empty) value. -/
def dfallback (x y : Option String) : Option String :=
  match x with
  | some v => some v
  | none => y

/-- JS truthiness of `d?.k` for a string-valued property: present and not the
empty string. -/
def detTruthy (d : Details) (k : String) : Bool :=
  match dget d k with
  | some v => v != ""
  | none => false

/-- Character-list prefix test, used to define substring containment. -/
def charsPrefix : List Char → List Char → Bool
  | [], _ => true
  | _ :: _, [] => false
  | a :: as, b :: bs => a == b && charsPrefix as bs

/-- Character-list substring containment, structurally recursive on the
haystack. -/
def charsContains : List Char → List Char → Bool
  | [], pat => pat.isEmpty
  | c :: rest, pat => charsPrefix pat (c :: rest) || charsContains rest pat

/-- JS `s.includes(pat)`. -/
def strContains (s pat : String) : Bool := charsContains s.toList pat.toList

/-- Externally observable operations a probe can attempt. -/
inductive Event
  | execList
  | execAdd
  | execRemove
  | clientCreate
  | libExternalIp
  | libCreateMapping
  | libRemoveMapping
  | clientClose
deriving DecidableEq, Repr

/-- Result object of one probe run (the shape built by `checkUPnPLinux`,
`checkUPnPWithLibraryLinux` and `checkUPnPWindows`). The `enabled` field is
only ever set by the Windows probe; the Linux probe objects carry no such
property, modelled as `none`. -/
structure ProbeResult where
  igdDetected : Bool
  addMapping : Bool
  removeMapping : Bool
  status : Status
  details : Details
  recommendations : List String
  platform : String
  enabled : Option Bool := none
deriving DecidableEq, Repr

/-- Recommendation pushed in the FAIL-with-IGD branch; the same literal in all
three probes. -/
def failRec : String :=
  "UPnP is detected but port mapping operations failed. Check router settings."

/-- Recommendation pushed on the discovery-negative early return; the same
literal in all three probes. -/
def noIgdRec : String :=
  "Check if your router supports UPnP and make sure it\x27s enabled"

/-- Negative-discovery signal: the two known substrings of the helper output
checked by both native probes. -/
def noIgdOutput (out : String) : Bool :=
  strContains out "No IGD UPnP Device found" ||
  strContains out "No valid UPNP Internet Gateway Device found"

/-- Final verdict block shared verbatim by the three probes: PASS when all
three flags hold, PARTIAL_PASS when the IGD was detected and at least one
mapping operation succeeded, FAIL otherwise (with a recommendation when the
IGD was detected). The Windows probe additionally sets `enabled` in each
branch (`isWindows = true`); the Linux probes leave it untouched. -/
def applyVerdict (r : ProbeResult) (partialRec : String) (isWindows : Bool) :
    ProbeResult :=
  if r.igdDetected && r.addMapping && r.removeMapping then
    { r with status := Status.PASS,
             enabled := if isWindows then some true else r.enabled }
  else if r.igdDetected && (r.addMapping || r.removeMapping) then
    { r with status := Status.PARTIAL_PASS,
             recommendations := r.recommendations ++ [partialRec],
             enabled := if isWindows then some true else r.enabled }
  else
    { r with status := Status.FAIL,
             recommendations :=
               r.recommendations ++ (if r.igdDetected then [failRec] else []),
             enabled := if isWindows then some r.igdDetected else r.enabled }

/-- Environment of one run of the Linux native probe `checkUPnPLinux`:
outcomes of the three `upnpc` invocations and of the local-IP scan over
`os.networkInterfaces()` (`none`: no non-internal IPv4 address exists). -/
structure LinuxNativeEnv where
  listExec : Except String String
  localIp : Option String
  addExec : Except String String
  removeExec : Except String String

/-- Shallow embedding of `checkUPnPLinux` (linux-checks.js lines 40-164),
returning the result object together with the trace of `upnpc` invocations. -/
def checkUPnPLinux (env : LinuxNativeEnv) : ProbeResult × List Event :=
  let r0 : ProbeResult :=
    { igdDetected := false, addMapping := false, removeMapping := false,
      status := Status.FAIL, details := [], recommendations := [],
      platform := "linux" }
  match env.listExec with
  | Except.error e =>
      ({ r0 with details := dset r0.details "error" e }, [Event.execList])
  | Except.ok listOutput =>
      if noIgdOutput listOutput then
        ({ r0 with
             details := dset r0.details "error" "No IGD detected on the network",
             recommendations := [noIgdRec] },
         [Event.execList])
      else
        let r1 := { r0 with igdDetected := true,
                            details := dset r0.details "igdInfo" listOutput }
        match env.localIp with
        | none =>
            let d := dset r1.details "error" "Could not determine local IP address"
            ({ r1 with details := d }, [Event.execList])
        | some _ip =>
            let step2 : Bool × Details :=
              match env.addExec with
              | Except.ok addOutput =>
                  (!(strContains addOutput "failed") &&
                     !(strContains addOutput "error"),
                   dset r1.details "addOutput" addOutput)
              | Except.error e => (false, dset r1.details "addError" e)
            let step3 : Bool × Details :=
              match env.removeExec with
              | Except.ok removeOutput =>
                  (!(strContains removeOutput "failed") &&
                     !(strContains removeOutput "error"),
                   dset step2.2 "removeOutput" removeOutput)
              | Except.error e => (false, dset step2.2 "removeError" e)
            let r2 := { r1 with addMapping := step2.1,
                                removeMapping := step3.1,
                                details := step3.2 }
            (applyVerdict r2 "Additional Router settings required" false,
             [Event.execList, Event.execAdd, Event.execRemove])

/-- Environment of one run of the library probe `checkUPnPWithLibraryLinux`:
`create` is the outcome of `natUpnp.createClient()` (error: it threw, reaching
the catch with the client still undefined); `bodyThrow` models a synchronous
exception raised by a client call after creation (caught by the catch block,
with the finally block closing the client); `externalIp` is the value the
`externalIp` callback resolves to (`none`: error or no IP); `addOk` and
`removeOk` are the callback outcomes of `createMapping` and `removeMapping`. -/
structure LibEnv where
  create : Except String Unit
  bodyThrow : Option String
  externalIp : Option String
  addOk : Bool
  removeOk : Bool

/-- Shallow embedding of `checkUPnPWithLibraryLinux` (linux-checks.js lines
170-279), returning the result object together with the trace of protocol
client operations. The discovery-negative early return closes the client
explicitly and then again in the finally block, hence two `clientClose`
events on that path. -/
def checkUPnPWithLibraryLinux (env : LibEnv) : ProbeResult × List Event :=
  let r0 : ProbeResult :=
    { igdDetected := false, addMapping := false, removeMapping := false,
      status := Status.FAIL, details := [], recommendations := [],
      platform := "linux" }
  match env.create with
  | Except.error e =>
      ({ r0 with details := dset r0.details "error" e }, [])
  | Except.ok _ =>
      match env.bodyThrow with
      | some e =>
          ({ r0 with details := dset r0.details "error" e },
           [Event.clientCreate, Event.clientClose])
      | none =>
          match env.externalIp with
          | none =>
              ({ r0 with
                   details :=
                     dset r0.details "error" "No IGD detected on the network",
                   recommendations := [noIgdRec] },
               [Event.clientCreate, Event.libExternalIp, Event.clientClose,
                Event.clientClose])
          | some ip =>
              let r1 := { r0 with igdDetected := true,
                                  details := dset r0.details "externalIp" ip,
                                  addMapping := env.addOk,
                                  removeMapping := env.removeOk }
              (applyVerdict r1 "Additional Router settings required" false,
               [Event.clientCreate, Event.libExternalIp,
                Event.libCreateMapping, Event.libRemoveMapping,
                Event.clientClose])

/-- Filesystem oracle consumed by the Windows tool locator. The JS calls
`fs.existsSync`, `fs.accessSync` (modelled as `accessOk`, false meaning the
access check threw) and `fs.readdirSync`. The per-candidate try/catch of the
source means a throwing filesystem call behaves like a negative answer, which
the total functions model directly. -/
structure WinFs where
  pathExists : String → Bool
  accessOk : String → Bool
  readdir : String → List String

/-- Application/packaging context consumed by the Windows tool locator. The
construction of the candidate list from `app.getAppPath()`, `__dirname`,
`app.getPath` and environment variables (windows-checks.js lines 19-47) is
abstracted to the resulting ordered candidate list, since the claims quantify
over the candidates; `appDir` is `path.dirname(app.getAppPath())`, used by the
packaged-app diagnostic. -/
structure WinAppCtx where
  isPackaged : Bool
  exePaths : List String
  appDir : String

/-- Result shape of the Windows tool locator. -/
structure ToolRes where
  available : Bool
  path : Option String
deriving DecidableEq, Repr

/-- Windows path separator used by `path.join` and `path.sep`. -/
def winSep : String := "\\"

/-- The asar skip test of the candidate loop (windows-checks.js line 59):
the path contains `app.asar` followed by a separator. -/
def isAsarPath (p : String) : Bool :=
  strContains p ("app.asar" ++ winSep) || strContains p "app.asar/"

/-- Candidate scan loop of `checkWindowsUPnPToolAvailability` (windows-checks.js
lines 51-76): first candidate that exists, is not an asar-internal path, and
passes the access check. -/
def scanCandidates (fs : WinFs) : List String → Option String
  | [] => none
  | p :: rest =>
      if fs.pathExists p then
        if isAsarPath p then scanCandidates fs rest
        else if fs.accessOk p then some p
        else scanCandidates fs rest
      else scanCandidates fs rest

/-- Packaged-app diagnostic of `checkWindowsUPnPToolAvailability`
(windows-checks.js lines 79-115): list the expected resources directory and,
when the executable name appears there and the direct path passes the access
check, return it as available. -/
def packagedDiagnostic (fs : WinFs) (ctx : WinAppCtx) : ToolRes :=
  if ctx.isPackaged then
    let resourcesPath := ctx.appDir ++ winSep ++ "resources"
    if fs.pathExists resourcesPath then
      if (fs.readdir resourcesPath).contains "upnpc-static.exe" then
        let directPath := resourcesPath ++ winSep ++ "upnpc-static.exe"
        if fs.accessOk directPath then { available := true, path := some directPath }
        else { available := false, path := none }
      else { available := false, path := none }
    else { available := false, path := none }
  else { available := false, path := none }

/-- Shallow embedding of `checkWindowsUPnPToolAvailability` (windows-checks.js
lines 15-122): scan the candidate list; on total failure run the packaged-app
diagnostic; otherwise report not available. The function never throws: every
filesystem error is caught in the source and modelled by a negative oracle
answer. -/
def checkWindowsUPnPToolAvailability (fs : WinFs) (ctx : WinAppCtx) : ToolRes :=
  match scanCandidates fs ctx.exePaths with
  | some p => { available := true, path := some p }
  | none => packagedDiagnostic fs ctx

/-- Environment of one run of the Windows native probe `checkUPnPWindows`:
the filesystem and app context feed the internal tool-availability check;
`upnpcIp` is the outcome of `getExternalIpWithUpnpc` (which never throws and
returns an IP or null) and `apiIp` of `getExternalIpFromApi`; the remaining
fields are the outcomes of the helper invocations and the local-IP scan. -/
structure WinEnv where
  fs : WinFs
  ctx : WinAppCtx
  listExec : Except String String
  upnpcIp : Option String
  apiIp : Option String
  localIp : Option String
  addExec : Except String String
  removeExec : Except String String

/-- Shallow embedding of `checkUPnPWindows` (windows-checks.js lines 187-334),
returning the result object together with the trace of helper invocations for
the discover/add/remove steps. -/
def checkUPnPWindows (env : WinEnv) : ProbeResult × List Event :=
  let r0 : ProbeResult :=
    { igdDetected := false, addMapping := false, removeMapping := false,
      status := Status.FAIL, details := [], recommendations := [],
      platform := "windows", enabled := some false }
  let tool := checkWindowsUPnPToolAvailability env.fs env.ctx
  if tool.available = false then
    let d := dset r0.details "error" "upnpc-static.exe not found"
    ({ r0 with details := d,
               recommendations :=
                 ["UPnP checking tool not found. This may be resolved after installation."] },
     [])
  else
    match env.listExec with
    | Except.error e =>
        ({ r0 with details := dset r0.details "error" e }, [Event.execList])
    | Except.ok listOutput =>
        if noIgdOutput listOutput then
          let d := dset r0.details "error" "No IGD detected on the network"
          ({ r0 with details := d, recommendations := [noIgdRec] },
           [Event.execList])
        else
          let r1 := { r0 with igdDetected := true,
                              details := dset r0.details "igdInfo" listOutput }
          let r1b :=
            match dfallback env.upnpcIp env.apiIp with
            | some ip => { r1 with details := dset r1.details "externalIp" ip }
            | none => r1
          match env.localIp with
          | none =>
              let d := dset r1b.details "error" "Could not determine local IP address"
              ({ r1b with details := d }, [Event.execList])
          | some _ip =>
              let step2 : Bool × Details :=
                match env.addExec with
                | Except.ok addOutput =>
                    (!(strContains addOutput "failed") &&
                       !(strContains addOutput "error"),
                     dset r1b.details "addOutput" addOutput)
                | Except.error e => (false, dset r1b.details "addError" e)
              let step3 : Bool × Details :=
                match env.removeExec with
                | Except.ok removeOutput =>
                    (!(strContains removeOutput "failed") &&
                       !(strContains removeOutput "error"),
                     dset step2.2 "removeOutput" removeOutput)
                | Except.error e => (false, dset step2.2 "removeError" e)
              let r2 := { r1b with addMapping := step2.1,
                                   removeMapping := step3.1,
                                   details := step3.2 }
              (applyVerdict r2 "Additional router settings may be required" true,
               [Event.execList, Event.execAdd, Event.execRemove])

/-- Result shape of the comprehensive checkers. JS objects on the different
return paths carry different field sets, so fields that are absent on some
path are optional (`none` models an absent property). `errorText` models the
JS top-level `error` property of the Windows results. -/
structure CompResult where
  igdDetected : Option Bool := none
  addMapping : Option Bool := none
  removeMapping : Option Bool := none
  status : Status
  details : Details := []
  recommendations : List String := []
  platform : String
  method : Option String := none
  toolName : Option String := none
  message : Option String := none
  toolPath : Option String := none
  enabled : Option Bool := none
  errorText : Option String := none
  nativeToolAvailable : Option Bool := none
deriving DecidableEq, Repr

/-- The MISSING_DEPENDENCY result returned by `checkLinuxUPnPComprehensive`
when the `upnpc` command is not available (linux-checks.js lines 371-382). -/
def linuxMissingDepResult : CompResult :=
  { igdDetected := some false,
    status := Status.MISSING_DEPENDENCY,
    toolName := some "miniupnpc",
    message := some "miniupnpc (which provides the upnpc command) is not installed. Please install it using your system package manager (e.g., sudo apt install miniupnpc or sudo dnf install miniupnpc).",
    platform := "linux",
    recommendations := ["Install miniupnpc to enable command-line UPnP checks."],
    details := [("error", "upnpc command not found.")] }

/-- The catch-block result of `checkLinuxUPnPComprehensive` (linux-checks.js
lines 418-429). -/
def linuxCatchResult (e : String) : CompResult :=
  { igdDetected := some false,
    status := Status.FAIL,
    message := some ("An unexpected error occurred during UPnP checks: " ++ e),
    platform := "linux",
    recommendations := ["Review error logs for more details."],
    details := [("error", e)] }

/-- Merge of the library and native Linux probe results (linux-checks.js lines
397-412). The spread starts from the library result and overlays every field
of the native result; since the native probe result defines every field of the
shape, every library field is replaced, including `details` and
`recommendations`. The conditional afterwards rebuilds `details` as the union
of both probes (native entries taking precedence) only when the native status
is not PASS and the native details carry a truthy `error` entry. -/
def mergeLinuxResults (libR natR : ProbeResult) : CompResult :=
  let combinedStatus :=
    if natR.status = Status.PASS then natR.status
    else if libR.status = Status.PASS ∧ natR.status ≠ Status.FAIL then libR.status
    else natR.status
  let base : CompResult :=
    { igdDetected := some natR.igdDetected,
      addMapping := some natR.addMapping,
      removeMapping := some natR.removeMapping,
      status := combinedStatus,
      details := natR.details,
      recommendations := natR.recommendations,
      platform := "linux",
      method := some "native_with_library_fallback",
      enabled := natR.enabled }
  if natR.status ≠ Status.PASS ∧ detTruthy natR.details "error" = true then
    let d2 := dset (dmerge libR.details natR.details) "error"
      ((dget natR.details "error").getD "")
    { base with details := d2 }
  else base

/-- Environment of one run of `checkLinuxUPnPComprehensive`: the outcome of
the `upnpc` PATH lookup (`checkLinuxUPnPToolAvailability` returns a boolean
and never throws), the environments of the two probes, and `orchThrow`
modelling a rejection escaping the probe calls, handled by the orchestrator
catch block. -/
structure LinuxCompEnv where
  toolAvailable : Bool
  lib : LibEnv
  native : LinuxNativeEnv
  orchThrow : Option String

/-- Shallow embedding of `checkLinuxUPnPComprehensive` (linux-checks.js lines
366-430). When the tool is missing it returns immediately and neither probe
runs, so the trace is empty; otherwise the library probe runs first, then the
native probe, and the results are merged. The catch branch is entered when a
rejection escapes the probe calls; its trace is not tracked. -/
def checkLinuxUPnPComprehensive (env : LinuxCompEnv) : CompResult × List Event :=
  if env.toolAvailable = false then (linuxMissingDepResult, [])
  else
    match env.orchThrow with
    | some e => (linuxCatchResult e, [])
    | none =>
        let libPair := checkUPnPWithLibraryLinux env.lib
        let natPair := checkUPnPLinux env.native
        (mergeLinuxResults libPair.1 natPair.1, libPair.2 ++ natPair.2)

/-- The basic UNKNOWN result returned by `checkWindowsUPnPComprehensive` when
the tool is not available (windows-checks.js lines 412-425). -/
def windowsUnknownResult : CompResult :=
  { status := Status.UNKNOWN,
    enabled := some false,
    errorText := some "UPnP tool not available",
    details := [("error", "UPnP checking tool not found")],
    recommendations := ["Complete the installation to enable UPnP checking"],
    method := some "none",
    platform := "windows",
    nativeToolAvailable := some false }

/-- The catch-block result of `checkWindowsUPnPComprehensive` (windows-checks.js
lines 428-437). -/
def windowsCatchResult (e : String) : CompResult :=
  { status := Status.FAIL,
    enabled := some false,
    errorText := some e,
    details := [("error", "Unexpected error during UPnP check")],
    platform := "windows" }

/-- Environment of one run of `checkWindowsUPnPComprehensive`: the probe
environment (whose filesystem and app context also answer the orchestrator
tool-availability call, deterministically as in the source) and `orchThrow`
modelling a rejection escaping the probe call. -/
structure WinCompEnv where
  probe : WinEnv
  orchThrow : Option String

/-- Shallow embedding of `checkWindowsUPnPComprehensive` (windows-checks.js
lines 392-438): check tool availability; when available run the native probe
and tag the result with method and tool path; when not, return the UNKNOWN
result without any probing. -/
def checkWindowsUPnPComprehensive (env : WinCompEnv) : CompResult × List Event :=
  let tool := checkWindowsUPnPToolAvailability env.probe.fs env.probe.ctx
  if tool.available then
    match env.orchThrow with
    | some e => (windowsCatchResult e, [])
    | none =>
        let pair := checkUPnPWindows env.probe
        ({ igdDetected := some pair.1.igdDetected,
           addMapping := some pair.1.addMapping,
           removeMapping := some pair.1.removeMapping,
           status := pair.1.status,
           details := pair.1.details,
           recommendations := pair.1.recommendations,
           platform := "windows",
           method := some "native",
           toolPath := tool.path,
           enabled := pair.1.enabled },
         pair.2)
  else (windowsUnknownResult, [])

/-- Keys of a details object, in order. -/
def dkeys (d : Details) : List String := d.map Prod.fst

theorem applyVerdict_igd (r : ProbeResult) (p : String) (w : Bool) :
    (applyVerdict r p w).igdDetected = r.igdDetected := by
  unfold applyVerdict; split_ifs <;> rfl

theorem applyVerdict_add (r : ProbeResult) (p : String) (w : Bool) :
    (applyVerdict r p w).addMapping = r.addMapping := by
  unfold applyVerdict; split_ifs <;> rfl

theorem applyVerdict_remove (r : ProbeResult) (p : String) (w : Bool) :
    (applyVerdict r p w).removeMapping = r.removeMapping := by
  unfold applyVerdict; split_ifs <;> rfl

theorem applyVerdict_details (r : ProbeResult) (p : String) (w : Bool) :
    (applyVerdict r p w).details = r.details := by
  unfold applyVerdict; split_ifs <;> rfl

theorem applyVerdict_status_pass (r : ProbeResult) (p : String) (w : Bool) :
    ((applyVerdict r p w).status = Status.PASS) ↔
      (r.igdDetected = true ∧ r.addMapping = true ∧ r.removeMapping = true) := by
  unfold applyVerdict; split_ifs with h1 h2 <;> simp_all

theorem dget_dset (d : Details) (k v k' : String) :
    dget (dset d k v) k' = if k' = k then some v else dget d k' := by
  induction d with
  | nil =>
      by_cases h : k' = k
      · subst h; simp [dset, dget]
      · have h' : ¬(k = k') := fun hh => h hh.symm
        simp [dset, dget, beq_iff_eq, h, h']
  | cons hd tl ih =>
      obtain ⟨k0, v0⟩ := hd
      by_cases h0 : k0 = k <;> by_cases h1 : k' = k <;> by_cases h2 : k0 = k' <;>
        simp_all [dset, dget, beq_iff_eq]

theorem mem_dkeys_dset (d : Details) (k v k' : String) :
    k' ∈ dkeys (dset d k v) ↔ k' ∈ dkeys d ∨ k' = k := by
  induction d with
  | nil => simp [dset, dkeys]
  | cons hd tl ih =>
      obtain ⟨k0, v0⟩ := hd
      by_cases h0 : k0 = k <;> (simp_all [dset, dkeys, beq_iff_eq]; try tauto)

theorem dnodup_dset (d : Details) (k v : String) (h : (dkeys d).Nodup) :
    (dkeys (dset d k v)).Nodup := by
  induction d with
  | nil => simp [dset, dkeys]
  | cons hd tl ih =>
      obtain ⟨k0, v0⟩ := hd
      simp only [dkeys, List.map_cons, List.nodup_cons] at h
      by_cases h0 : k0 = k
      · simpa [dset, h0, dkeys] using h
      · have hmem : k0 ∉ dkeys (dset tl k v) := by
          rw [mem_dkeys_dset]
          rintro (hc | hc)
          · exact h.1 (by simpa [dkeys] using hc)
          · exact h0 hc
        simpa [dset, h0, dkeys, List.nodup_cons] using
          ⟨by simpa [dkeys] using hmem, ih h.2⟩

theorem dget_none_of_not_mem (d : Details) (k : String) (h : k ∉ dkeys d) :
    dget d k = none := by
  induction d with
  | nil => rfl
  | cons hd tl ih =>
      obtain ⟨k0, v0⟩ := hd
      simp only [dkeys, List.map_cons, List.mem_cons] at h
      push_neg at h
      simpa [dget, beq_iff_eq, Ne.symm h.1] using ih (by simpa [dkeys] using h.2)

theorem dmerge_cons (a : Details) (p : String × String) (tl : Details) :
    dmerge a (p :: tl) = dmerge (dset a p.1 p.2) tl := by
  simp [dmerge]

theorem dget_dmerge (a b : Details) (k : String) (hb : (dkeys b).Nodup) :
    dget (dmerge a b) k = dfallback (dget b k) (dget a k) := by
  induction b generalizing a with
  | nil => simp [dmerge, dget, dfallback]
  | cons hd tl ih =>
      obtain ⟨k0, v0⟩ := hd
      simp only [dkeys, List.map_cons, List.nodup_cons] at hb
      rw [dmerge_cons]
      rw [ih (dset a k0 v0) (by simpa [dkeys] using hb.2)]
      by_cases h : k = k0
      · subst h
        have : dget tl k = none :=
          dget_none_of_not_mem tl k (by simpa [dkeys] using hb.1)
        simp [this, dget, dget_dset, dfallback]
      · simp [dget, beq_iff_eq, Ne.symm h, dget_dset, h]

/-- C1: for every probe run (the Linux native probe, the Linux library probe
and the Windows native probe, over every environment), the returned result has
status PASS if and only if igdDetected, addMapping and removeMapping are all
true. -/
theorem c1_status_pass_iff_flags (e1 : LinuxNativeEnv) (e2 : LibEnv) (e3 : WinEnv) :
    ((checkUPnPLinux e1).1.status = Status.PASS ↔
       ((checkUPnPLinux e1).1.igdDetected = true ∧
        (checkUPnPLinux e1).1.addMapping = true ∧
        (checkUPnPLinux e1).1.removeMapping = true)) ∧
    ((checkUPnPWithLibraryLinux e2).1.status = Status.PASS ↔
       ((checkUPnPWithLibraryLinux e2).1.igdDetected = true ∧
        (checkUPnPWithLibraryLinux e2).1.addMapping = true ∧
        (checkUPnPWithLibraryLinux e2).1.removeMapping = true)) ∧
    ((checkUPnPWindows e3).1.status = Status.PASS ↔
       ((checkUPnPWindows e3).1.igdDetected = true ∧
        (checkUPnPWindows e3).1.addMapping = true ∧
        (checkUPnPWindows e3).1.removeMapping = true)) := by
  refine ⟨?_, ?_, ?_⟩
  · obtain ⟨le, lip, ae, re⟩ := e1
    cases le with
    | error e => simp [checkUPnPLinux]
    | ok lo =>
        cases h : noIgdOutput lo with
        | true => simp [checkUPnPLinux, h]
        | false =>
            cases lip with
            | none => simp [checkUPnPLinux, h]
            | some ip =>
                cases ae <;> cases re <;>
                  simp [checkUPnPLinux, h, applyVerdict_status_pass,
                    applyVerdict_igd, applyVerdict_add, applyVerdict_remove]
  · obtain ⟨cr, bt, xip, ao, ro⟩ := e2
    cases cr with
    | error e => simp [checkUPnPWithLibraryLinux]
    | ok u =>
        cases bt with
        | some e => simp [checkUPnPWithLibraryLinux]
        | none =>
            cases xip with
            | none => simp [checkUPnPWithLibraryLinux]
            | some ip =>
                simp [checkUPnPWithLibraryLinux, applyVerdict_status_pass,
                  applyVerdict_igd, applyVerdict_add, applyVerdict_remove]
  · obtain ⟨fs, ctx, le, uip, aip, lip, ae, re⟩ := e3
    by_cases ht : (checkWindowsUPnPToolAvailability fs ctx).available = false
    · simp [checkUPnPWindows, ht]
    · cases le with
      | error e => simp [checkUPnPWindows, ht]
      | ok lo =>
          cases h : noIgdOutput lo with
          | true => simp [checkUPnPWindows, ht, h]
          | false =>
              cases hip : dfallback uip aip with
              | none =>
                  cases lip with
                  | none => simp [checkUPnPWindows, ht, h, hip]
                  | some ip =>
                      cases ae <;> cases re <;>
                        simp [checkUPnPWindows, ht, h, hip,
                          applyVerdict_status_pass, applyVerdict_igd,
                          applyVerdict_add, applyVerdict_remove]
              | some xp =>
                  cases lip with
                  | none => simp [checkUPnPWindows, ht, h, hip]
                  | some ip =>
                      cases ae <;> cases re <;>
                        simp [checkUPnPWindows, ht, h, hip,
                          applyVerdict_status_pass, applyVerdict_igd,
                          applyVerdict_add, applyVerdict_remove]

/-- C6: for every probe run, if the returned result has igdDetected false then
addMapping and removeMapping are both false, and no add-mapping or
remove-mapping operation was attempted (the trace carries no such event). -/
theorem c6_discovery_negative_short_circuit
    (e1 : LinuxNativeEnv) (e2 : LibEnv) (e3 : WinEnv) :
    ((checkUPnPLinux e1).1.igdDetected = false →
       (checkUPnPLinux e1).1.addMapping = false ∧
       (checkUPnPLinux e1).1.removeMapping = false ∧
       Event.execAdd ∉ (checkUPnPLinux e1).2 ∧
       Event.execRemove ∉ (checkUPnPLinux e1).2) ∧
    ((checkUPnPWithLibraryLinux e2).1.igdDetected = false →
       (checkUPnPWithLibraryLinux e2).1.addMapping = false ∧
       (checkUPnPWithLibraryLinux e2).1.removeMapping = false ∧
       Event.libCreateMapping ∉ (checkUPnPWithLibraryLinux e2).2 ∧
       Event.libRemoveMapping ∉ (checkUPnPWithLibraryLinux e2).2) ∧
    ((checkUPnPWindows e3).1.igdDetected = false →
       (checkUPnPWindows e3).1.addMapping = false ∧
       (checkUPnPWindows e3).1.removeMapping = false ∧
       Event.execAdd ∉ (checkUPnPWindows e3).2 ∧
       Event.execRemove ∉ (checkUPnPWindows e3).2) := by
  refine ⟨?_, ?_, ?_⟩
  · obtain ⟨le, lip, ae, re⟩ := e1
    cases le with
    | error e => simp [checkUPnPLinux]
    | ok lo =>
        cases h : noIgdOutput lo with
        | true => simp [checkUPnPLinux, h]
        | false =>
            cases lip with
            | none => simp [checkUPnPLinux, h]
            | some ip =>
                cases ae <;> cases re <;>
                  simp [checkUPnPLinux, h, applyVerdict_igd]
  · obtain ⟨cr, bt, xip, ao, ro⟩ := e2
    cases cr with
    | error e => simp [checkUPnPWithLibraryLinux]
    | ok u =>
        cases bt with
        | some e => simp [checkUPnPWithLibraryLinux]
        | none =>
            cases xip with
            | none => simp [checkUPnPWithLibraryLinux]
            | some ip => simp [checkUPnPWithLibraryLinux, applyVerdict_igd]
  · obtain ⟨fs, ctx, le, uip, aip, lip, ae, re⟩ := e3
    by_cases ht : (checkWindowsUPnPToolAvailability fs ctx).available = false
    · simp [checkUPnPWindows, ht]
    · cases le with
      | error e => simp [checkUPnPWindows, ht]
      | ok lo =>
          cases h : noIgdOutput lo with
          | true => simp [checkUPnPWindows, ht, h]
          | false =>
              cases hip : dfallback uip aip <;> cases lip <;>
                cases ae <;> cases re <;>
                  simp [checkUPnPWindows, ht, h, hip, applyVerdict_igd]

/-- Concrete discovery-negative environment for the Linux native probe. -/
def c6NativeEnv : LinuxNativeEnv :=
  { listExec := Except.ok "No IGD UPnP Device found", localIp := some "192.168.1.2",
    addExec := Except.ok "ok", removeExec := Except.ok "ok" }

/-- Concrete discovery-negative environment for the Linux library probe. -/
def c6LibEnv : LibEnv :=
  { create := Except.ok (), bodyThrow := none, externalIp := none,
    addOk := true, removeOk := true }

/-- Concrete discovery-negative environment for the Windows native probe. -/
def c6WinEnv : WinEnv :=
  { fs := { pathExists := fun _ => true, accessOk := fun _ => true,
            readdir := fun _ => [] },
    ctx := { isPackaged := false, exePaths := ["C:\\tools\\upnpc-static.exe"],
             appDir := "C:\\tools" },
    listExec := Except.ok "No IGD UPnP Device found", upnpcIp := none,
    apiIp := none, localIp := some "192.168.1.2",
    addExec := Except.ok "ok", removeExec := Except.ok "ok" }

/-- C6 witness: the short-circuit conclusions on concrete discovery-negative
runs of the three probes. -/
theorem c6_discovery_negative_short_circuit_witness :
    ((checkUPnPLinux c6NativeEnv).1.addMapping = false ∧
       (checkUPnPLinux c6NativeEnv).1.removeMapping = false ∧
       Event.execAdd ∉ (checkUPnPLinux c6NativeEnv).2 ∧
       Event.execRemove ∉ (checkUPnPLinux c6NativeEnv).2) ∧
    ((checkUPnPWithLibraryLinux c6LibEnv).1.addMapping = false ∧
       (checkUPnPWithLibraryLinux c6LibEnv).1.removeMapping = false ∧
       Event.libCreateMapping ∉ (checkUPnPWithLibraryLinux c6LibEnv).2 ∧
       Event.libRemoveMapping ∉ (checkUPnPWithLibraryLinux c6LibEnv).2) ∧
    ((checkUPnPWindows c6WinEnv).1.addMapping = false ∧
       (checkUPnPWindows c6WinEnv).1.removeMapping = false ∧
       Event.execAdd ∉ (checkUPnPWindows c6WinEnv).2 ∧
       Event.execRemove ∉ (checkUPnPWindows c6WinEnv).2) :=
  ⟨(c6_discovery_negative_short_circuit c6NativeEnv c6LibEnv c6WinEnv).1 (by decide),
   (c6_discovery_negative_short_circuit c6NativeEnv c6LibEnv c6WinEnv).2.1 (by decide),
   (c6_discovery_negative_short_circuit c6NativeEnv c6LibEnv c6WinEnv).2.2 (by decide)⟩

/-- C7: in every probe run that attempts the add-mapping operation, the
remove-mapping operation is also attempted, regardless of the add outcome. -/
theorem c7_cleanup_always (e1 : LinuxNativeEnv) (e2 : LibEnv) (e3 : WinEnv) :
    (Event.execAdd ∈ (checkUPnPLinux e1).2 →
       Event.execRemove ∈ (checkUPnPLinux e1).2) ∧
    (Event.libCreateMapping ∈ (checkUPnPWithLibraryLinux e2).2 →
       Event.libRemoveMapping ∈ (checkUPnPWithLibraryLinux e2).2) ∧
    (Event.execAdd ∈ (checkUPnPWindows e3).2 →
       Event.execRemove ∈ (checkUPnPWindows e3).2) := by
  refine ⟨?_, ?_, ?_⟩
  · obtain ⟨le, lip, ae, re⟩ := e1
    cases le with
    | error e => simp [checkUPnPLinux]
    | ok lo =>
        cases h : noIgdOutput lo with
        | true => simp [checkUPnPLinux, h]
        | false =>
            cases lip with
            | none => simp [checkUPnPLinux, h]
            | some ip => cases ae <;> cases re <;> simp [checkUPnPLinux, h]
  · obtain ⟨cr, bt, xip, ao, ro⟩ := e2
    cases cr with
    | error e => simp [checkUPnPWithLibraryLinux]
    | ok u =>
        cases bt with
        | some e => simp [checkUPnPWithLibraryLinux]
        | none =>
            cases xip <;> simp [checkUPnPWithLibraryLinux]
  · obtain ⟨fs, ctx, le, uip, aip, lip, ae, re⟩ := e3
    by_cases ht : (checkWindowsUPnPToolAvailability fs ctx).available = false
    · simp [checkUPnPWindows, ht]
    · cases le with
      | error e => simp [checkUPnPWindows, ht]
      | ok lo =>
          cases h : noIgdOutput lo with
          | true => simp [checkUPnPWindows, ht, h]
          | false =>
              cases hip : dfallback uip aip <;> cases lip <;>
                cases ae <;> cases re <;> simp [checkUPnPWindows, ht, h, hip]

/-- C7 witness: a concrete run of each probe that attempts add-mapping also
attempts remove-mapping. -/
theorem c7_cleanup_always_witness :
    (Event.execRemove ∈
       (checkUPnPLinux
         { listExec := Except.ok "IGD found", localIp := some "192.168.1.2",
           addExec := Except.error "timeout", removeExec := Except.ok "ok" }).2) ∧
    (Event.libRemoveMapping ∈
       (checkUPnPWithLibraryLinux
         { create := Except.ok (), bodyThrow := none,
           externalIp := some "1.2.3.4", addOk := false, removeOk := false }).2) ∧
    (Event.execRemove ∈
       (checkUPnPWindows
         { fs := { pathExists := fun _ => true, accessOk := fun _ => true,
                   readdir := fun _ => [] },
           ctx := { isPackaged := false, exePaths := ["C:\\tools\\upnpc-static.exe"],
                    appDir := "C:\\tools" },
           listExec := Except.ok "IGD found", upnpcIp := none, apiIp := none,
           localIp := some "192.168.1.2", addExec := Except.ok "ok",
           removeExec := Except.ok "ok" }).2) := by
  refine ⟨?_, ?_, ?_⟩
  · exact (c7_cleanup_always
      { listExec := Except.ok "IGD found", localIp := some "192.168.1.2",
        addExec := Except.error "timeout", removeExec := Except.ok "ok" }
      { create := Except.ok (), bodyThrow := none,
        externalIp := some "1.2.3.4", addOk := false, removeOk := false }
      { fs := { pathExists := fun _ => true, accessOk := fun _ => true,
                readdir := fun _ => [] },
        ctx := { isPackaged := false, exePaths := ["C:\\tools\\upnpc-static.exe"],
                 appDir := "C:\\tools" },
        listExec := Except.ok "IGD found", upnpcIp := none, apiIp := none,
        localIp := some "192.168.1.2", addExec := Except.ok "ok",
        removeExec := Except.ok "ok" }).1 (by decide)
  · exact (c7_cleanup_always
      { listExec := Except.ok "IGD found", localIp := some "192.168.1.2",
        addExec := Except.error "timeout", removeExec := Except.ok "ok" }
      { create := Except.ok (), bodyThrow := none,
        externalIp := some "1.2.3.4", addOk := false, removeOk := false }
      { fs := { pathExists := fun _ => true, accessOk := fun _ => true,
                readdir := fun _ => [] },
        ctx := { isPackaged := false, exePaths := ["C:\\tools\\upnpc-static.exe"],
                 appDir := "C:\\tools" },
        listExec := Except.ok "IGD found", upnpcIp := none, apiIp := none,
        localIp := some "192.168.1.2", addExec := Except.ok "ok",
        removeExec := Except.ok "ok" }).2.1 (by decide)
  · exact (c7_cleanup_always
      { listExec := Except.ok "IGD found", localIp := some "192.168.1.2",
        addExec := Except.error "timeout", removeExec := Except.ok "ok" }
      { create := Except.ok (), bodyThrow := none,
        externalIp := some "1.2.3.4", addOk := false, removeOk := false }
      { fs := { pathExists := fun _ => true, accessOk := fun _ => true,
                readdir := fun _ => [] },
        ctx := { isPackaged := false, exePaths := ["C:\\tools\\upnpc-static.exe"],
                 appDir := "C:\\tools" },
        listExec := Except.ok "IGD found", upnpcIp := none, apiIp := none,
        localIp := some "192.168.1.2", addExec := Except.ok "ok",
        removeExec := Except.ok "ok" }).2.2 (by decide)

/-- C9: in every run of the Linux library probe in which the protocol client
was created, the client close operation is invoked before the probe returns,
on every exit path. -/
theorem c9_client_always_closed (e : LibEnv)
    (h : Event.clientCreate ∈ (checkUPnPWithLibraryLinux e).2) :
    Event.clientClose ∈ (checkUPnPWithLibraryLinux e).2 := by
  obtain ⟨cr, bt, xip, ao, ro⟩ := e
  cases cr with
  | error e => simp_all [checkUPnPWithLibraryLinux]
  | ok u =>
      cases bt with
      | some e => simp [checkUPnPWithLibraryLinux]
      | none => cases xip <;> simp [checkUPnPWithLibraryLinux]

/-- C9 witness: on a concrete successful run the client is closed. -/
theorem c9_client_always_closed_witness :
    Event.clientClose ∈
      (checkUPnPWithLibraryLinux
        { create := Except.ok (), bodyThrow := none,
          externalIp := some "1.2.3.4", addOk := true, removeOk := true }).2 :=
  c9_client_always_closed
    { create := Except.ok (), bodyThrow := none,
      externalIp := some "1.2.3.4", addOk := true, removeOk := true }
    (by decide)

/-- C10: on the discovery-negative exit path of the Linux library probe the
client close operation is invoked exactly twice: once explicitly before the
early return and once again by the finally block. -/
theorem c10_double_close_on_no_igd (e : LibEnv)
    (h1 : e.create = Except.ok ()) (h2 : e.bodyThrow = none)
    (h3 : e.externalIp = none) :
    (checkUPnPWithLibraryLinux e).2.count Event.clientClose = 2 := by
  obtain ⟨cr, bt, xip, ao, ro⟩ := e
  simp only at h1 h2 h3
  subst h1; subst h2; subst h3
  rfl

/-- C10 witness: the double close on a concrete discovery-negative run. -/
theorem c10_double_close_on_no_igd_witness :
    (checkUPnPWithLibraryLinux
      { create := Except.ok (), bodyThrow := none, externalIp := none,
        addOk := false, removeOk := false }).2.count Event.clientClose = 2 :=
  c10_double_close_on_no_igd
    { create := Except.ok (), bodyThrow := none, externalIp := none,
      addOk := false, removeOk := false } rfl rfl rfl

/-- C2: on Linux, when both probes run, the merged status follows the
precedence rule of the source: native PASS wins; else a library PASS wins
when the native status is not FAIL; otherwise the native status stands. In
particular a native PASS with a library FAIL merges to PASS. -/
theorem c2_merge_status_precedence (env : LinuxCompEnv)
    (h1 : env.toolAvailable = true) (h2 : env.orchThrow = none) :
    ((checkLinuxUPnPComprehensive env).1.status =
       (if (checkUPnPLinux env.native).1.status = Status.PASS then
          (checkUPnPLinux env.native).1.status
        else if (checkUPnPWithLibraryLinux env.lib).1.status = Status.PASS ∧
                (checkUPnPLinux env.native).1.status ≠ Status.FAIL then
          (checkUPnPWithLibraryLinux env.lib).1.status
        else (checkUPnPLinux env.native).1.status)) ∧
    ((checkUPnPLinux env.native).1.status = Status.PASS →
       (checkUPnPWithLibraryLinux env.lib).1.status = Status.FAIL →
       (checkLinuxUPnPComprehensive env).1.status = Status.PASS) := by
  constructor
  · simp only [checkLinuxUPnPComprehensive, h1, h2]
    unfold mergeLinuxResults
    split_ifs <;> simp_all
  · intro hn hl
    simp only [checkLinuxUPnPComprehensive, h1, h2]
    unfold mergeLinuxResults
    split_ifs <;> simp_all

/-- Concrete Linux comprehensive environment with a passing native probe and
a failing library probe. -/
def c2Env : LinuxCompEnv :=
  { toolAvailable := true,
    lib := { create := Except.ok (), bodyThrow := none, externalIp := none,
             addOk := false, removeOk := false },
    native := { listExec := Except.ok "IGD found", localIp := some "192.168.1.2",
                addExec := Except.ok "ok", removeExec := Except.ok "ok" },
    orchThrow := none }

/-- C2 witness: native PASS with library FAIL merges to PASS on a concrete
environment. -/
theorem c2_merge_status_precedence_witness :
    (checkLinuxUPnPComprehensive c2Env).1.status = Status.PASS :=
  (c2_merge_status_precedence c2Env rfl rfl).2 (by decide) (by decide)

/-- C4: on Linux, when the upnpc tool is unavailable, the comprehensive check
returns status MISSING_DEPENDENCY with igdDetected false and attempts no
probing operation at all (the trace is empty: neither probe runs). -/
theorem c4_missing_dependency_short_circuit (env : LinuxCompEnv)
    (h : env.toolAvailable = false) :
    (checkLinuxUPnPComprehensive env).1.status = Status.MISSING_DEPENDENCY ∧
    (checkLinuxUPnPComprehensive env).1.igdDetected = some false ∧
    (checkLinuxUPnPComprehensive env).2 = [] := by
  refine ⟨?_, ?_, ?_⟩ <;> simp [checkLinuxUPnPComprehensive, h, linuxMissingDepResult]

/-- Concrete Linux comprehensive environment with the tool unavailable. -/
def c4Env : LinuxCompEnv :=
  { toolAvailable := false,
    lib := { create := Except.ok (), bodyThrow := none, externalIp := some "1.2.3.4",
             addOk := true, removeOk := true },
    native := { listExec := Except.ok "IGD found", localIp := some "192.168.1.2",
                addExec := Except.ok "ok", removeExec := Except.ok "ok" },
    orchThrow := none }

/-- C4 witness: the missing-dependency short circuit on a concrete
environment. -/
theorem c4_missing_dependency_short_circuit_witness :
    (checkLinuxUPnPComprehensive c4Env).1.status = Status.MISSING_DEPENDENCY ∧
    (checkLinuxUPnPComprehensive c4Env).1.igdDetected = some false ∧
    (checkLinuxUPnPComprehensive c4Env).2 = [] :=
  c4_missing_dependency_short_circuit c4Env rfl

/-- C5: on Windows, when the tool locator reports the helper unavailable, the
comprehensive check returns status UNKNOWN (which is not FAIL) with the
recommendation to complete installation, and no mapping operation is
attempted (the trace is empty). -/
theorem c5_windows_unknown_on_missing_tool (env : WinCompEnv)
    (h : (checkWindowsUPnPToolAvailability env.probe.fs env.probe.ctx).available
           = false) :
    (checkWindowsUPnPComprehensive env).1.status = Status.UNKNOWN ∧
    Status.UNKNOWN ≠ Status.FAIL ∧
    "Complete the installation to enable UPnP checking" ∈
      (checkWindowsUPnPComprehensive env).1.recommendations ∧
    (checkWindowsUPnPComprehensive env).2 = [] := by
  refine ⟨?_, by decide, ?_, ?_⟩ <;>
    simp [checkWindowsUPnPComprehensive, h, windowsUnknownResult]

/-- Concrete Windows comprehensive environment with the tool unavailable. -/
def c5Env : WinCompEnv :=
  { probe :=
      { fs := { pathExists := fun _ => false, accessOk := fun _ => false,
                readdir := fun _ => [] },
        ctx := { isPackaged := false, exePaths := ["C:\\tools\\upnpc-static.exe"],
                 appDir := "C:\\tools" },
        listExec := Except.ok "IGD found", upnpcIp := none, apiIp := none,
        localIp := some "192.168.1.2", addExec := Except.ok "ok",
        removeExec := Except.ok "ok" },
    orchThrow := none }

/-- C5 witness: the UNKNOWN short circuit on a concrete environment. -/
theorem c5_windows_unknown_on_missing_tool_witness :
    (checkWindowsUPnPComprehensive c5Env).1.status = Status.UNKNOWN ∧
    Status.UNKNOWN ≠ Status.FAIL ∧
    "Complete the installation to enable UPnP checking" ∈
      (checkWindowsUPnPComprehensive c5Env).1.recommendations ∧
    (checkWindowsUPnPComprehensive c5Env).2 = [] :=
  c5_windows_unknown_on_missing_tool c5Env (by decide)

/-- Keys of the details object produced by the Linux native probe are unique:
the probe only ever assigns the distinct literal keys error, igdInfo,
addOutput, addError, removeOutput and removeError. -/
theorem checkUPnPLinux_details_nodup (env : LinuxNativeEnv) :
    (dkeys (checkUPnPLinux env).1.details).Nodup := by
  obtain ⟨le, lip, ae, re⟩ := env
  cases le with
  | error e => simp [checkUPnPLinux, dkeys, dset]
  | ok lo =>
      cases h : noIgdOutput lo with
      | true => simp [checkUPnPLinux, h, dkeys, dset]
      | false =>
          cases lip with
          | none => simp [checkUPnPLinux, h, dkeys, dset]
          | some ip =>
              cases ae <;> cases re <;>
                simp [checkUPnPLinux, h, applyVerdict_details, dkeys, dset]

/-- Concrete library environment whose result carries the externalIp details
entry. -/
def c3LibEnv : LibEnv :=
  { create := Except.ok (), bodyThrow := none, externalIp := some "8.8.8.8",
    addOk := true, removeOk := true }

/-- Concrete native environment whose run passes and whose details carry no
externalIp entry. -/
def c3NativeEnv : LinuxNativeEnv :=
  { listExec := Except.ok "IGD found", localIp := some "192.168.1.2",
    addExec := Except.ok "ok", removeExec := Except.ok "ok" }

/-- Concrete Linux comprehensive environment on which the merge drops the
library-only details entry. -/
def c3Env : LinuxCompEnv :=
  { toolAvailable := true, lib := c3LibEnv, native := c3NativeEnv,
    orchThrow := none }

/-- C3 counterexample: on a run where the native probe passes, the merged
details are exactly the native details, so the externalIp entry present only
in the library details is discarded, contradicting the claim that merging
never discards a details entry that only the library result carries. -/
theorem c3_details_preserved_counterexample :
    dhas (checkUPnPWithLibraryLinux c3LibEnv).1.details "externalIp" = true ∧
    dhas (checkLinuxUPnPComprehensive c3Env).1.details "externalIp" = false := by
  decide

/-- C3 (amended): the merge preserves the diagnostic details of both probe
results only when the native status is not PASS and the native details carry
a truthy error entry; in that case every key present in either details object
is present in the merged details, with the native value taking precedence on
conflict. Otherwise the merged details are exactly the native details and
library-only entries are discarded (see the counterexample). -/
theorem c3_details_union_when_native_error (env : LinuxCompEnv)
    (h1 : env.toolAvailable = true) (h2 : env.orchThrow = none)
    (h3 : (checkUPnPLinux env.native).1.status ≠ Status.PASS)
    (h4 : detTruthy (checkUPnPLinux env.native).1.details "error" = true)
    (k : String) :
    dget (checkLinuxUPnPComprehensive env).1.details k =
      dfallback (dget (checkUPnPLinux env.native).1.details k)
        (dget (checkUPnPWithLibraryLinux env.lib).1.details k) := by
  have h4' : ∃ e, dget (checkUPnPLinux env.native).1.details "error" = some e ∧
      e ≠ "" := by
    unfold detTruthy at h4
    cases hg : dget (checkUPnPLinux env.native).1.details "error" with
    | none => rw [hg] at h4; simp at h4
    | some v => rw [hg] at h4; exact ⟨v, rfl, by simpa using h4⟩
  obtain ⟨e, he1, he2⟩ := h4'
  have hred : checkLinuxUPnPComprehensive env =
      (mergeLinuxResults (checkUPnPWithLibraryLinux env.lib).1
         (checkUPnPLinux env.native).1,
       (checkUPnPWithLibraryLinux env.lib).2 ++ (checkUPnPLinux env.native).2) := by
    unfold checkLinuxUPnPComprehensive
    rw [h1, h2]
    simp
  rw [hred]
  have hcond : (checkUPnPLinux env.native).1.status ≠ Status.PASS ∧
      detTruthy (checkUPnPLinux env.native).1.details "error" = true := ⟨h3, h4⟩
  simp only [mergeLinuxResults]
  rw [if_pos hcond]
  simp only [he1, Option.getD_some]
  rw [dget_dset]
  by_cases hk : k = "error"
  · subst hk
    simp [he1, dfallback]
  · rw [if_neg hk,
      dget_dmerge _ _ _ (checkUPnPLinux_details_nodup env.native)]

/-- Concrete Linux comprehensive environment where the native probe fails with
an error entry while the library probe passes. -/
def c3AmendEnv : LinuxCompEnv :=
  { toolAvailable := true,
    lib := { create := Except.ok (), bodyThrow := none,
             externalIp := some "8.8.8.8", addOk := true, removeOk := true },
    native := { listExec := Except.error "spawn failure",
                localIp := some "192.168.1.2",
                addExec := Except.ok "ok", removeExec := Except.ok "ok" },
    orchThrow := none }

/-- C3 amended witness: on a concrete run where the native probe fails with a
truthy error, the library-only externalIp entry survives the merge. -/
theorem c3_details_union_when_native_error_witness :
    dget (checkLinuxUPnPComprehensive c3AmendEnv).1.details "externalIp" =
      dfallback (dget (checkUPnPLinux c3AmendEnv.native).1.details "externalIp")
        (dget (checkUPnPWithLibraryLinux c3AmendEnv.lib).1.details "externalIp") :=
  c3_details_union_when_native_error c3AmendEnv rfl rfl (by decide) (by decide)
    "externalIp"

/-- Soundness of the candidate scan loop: any path it returns exists on the
filesystem, passed the access check, and is never an asar-internal path. -/
theorem scanCandidates_sound (fs : WinFs) (l : List String) (p : String)
    (h : scanCandidates fs l = some p) :
    isAsarPath p = false ∧ fs.pathExists p = true ∧ fs.accessOk p = true := by
  induction l with
  | nil => simp [scanCandidates] at h
  | cons q rest ih =>
      simp only [scanCandidates] at h
      by_cases h1 : fs.pathExists q = true
      · rw [if_pos h1] at h
        by_cases h2 : isAsarPath q = true
        · rw [if_pos h2] at h; exact ih h
        · rw [if_neg h2] at h
          by_cases h3 : fs.accessOk q = true
          · rw [if_pos h3] at h
            injection h with h'
            subst h'
            simp only [Bool.not_eq_true] at h2
            exact ⟨h2, h1, h3⟩
          · rw [if_neg h3] at h; exact ih h
      · rw [if_neg h1] at h; exact ih h

/-- When the packaged-app diagnostic does not report the tool available, it
returns the clean not-available result with no path. -/
theorem packagedDiagnostic_not_available (fs : WinFs) (ctx : WinAppCtx)
    (h : (packagedDiagnostic fs ctx).available = false) :
    packagedDiagnostic fs ctx = { available := false, path := none } := by
  cases hp : ctx.isPackaged with
  | false => simp [packagedDiagnostic, hp]
  | true =>
      cases hr : fs.pathExists (ctx.appDir ++ winSep ++ "resources") with
      | false => simp [packagedDiagnostic, hp, hr]
      | true =>
          by_cases hm : "upnpc-static.exe" ∈
              fs.readdir (ctx.appDir ++ winSep ++ "resources")
          · cases hacc : fs.accessOk
                (ctx.appDir ++ winSep ++ "resources" ++ winSep ++
                  "upnpc-static.exe") with
            | false => simp [packagedDiagnostic, hp, hr, hm, hacc]
            | true =>
                exfalso
                simp [packagedDiagnostic, hp, hr, hm, hacc] at h
          · simp [packagedDiagnostic, hp, hr, hm]

/-- C8 (amended): the candidate-scan loop never returns as available a path
inside an app.asar segment - any scanned hit exists, is asar-free and passed
the access check, and the locator returns it as available. When the scan and
the packaged-app diagnostic both fail, the locator returns not-available with
no path (and, being a total function of its oracles, it never throws). The
packaged-app diagnostic, however, does not repeat the asar check, so it can
return the packaged resources path as available even when that path lies
inside an app.asar segment (see the counterexample). -/
theorem c8_locator_asar_safety (fs : WinFs) (ctx : WinAppCtx) :
    (∀ p, scanCandidates fs ctx.exePaths = some p →
       (isAsarPath p = false ∧ fs.pathExists p = true ∧ fs.accessOk p = true ∧
        checkWindowsUPnPToolAvailability fs ctx =
          { available := true, path := some p })) ∧
    ((checkWindowsUPnPToolAvailability fs ctx).available = false →
       checkWindowsUPnPToolAvailability fs ctx =
         { available := false, path := none }) := by
  constructor
  · intro p hp
    obtain ⟨ha, he, hc⟩ := scanCandidates_sound fs ctx.exePaths p hp
    refine ⟨ha, he, hc, ?_⟩
    simp [checkWindowsUPnPToolAvailability, hp]
  · intro hav
    cases hscan : scanCandidates fs ctx.exePaths with
    | some p =>
        exfalso
        have hres : checkWindowsUPnPToolAvailability fs ctx =
            { available := true, path := some p } := by
          simp [checkWindowsUPnPToolAvailability, hscan]
        rw [hres] at hav
        simp at hav
    | none =>
        have hdiag : checkWindowsUPnPToolAvailability fs ctx =
            packagedDiagnostic fs ctx := by
          simp [checkWindowsUPnPToolAvailability, hscan]
        rw [hdiag] at hav ⊢
        exact packagedDiagnostic_not_available fs ctx hav

/-- Path of the asar-internal candidate of the C8 counterexample. -/
def c8CexPath : String := "C:\\yom\\app.asar\\resources\\upnpc-static.exe"

/-- Filesystem of the C8 counterexample: the asar-internal executable exists
and is accessible, and the resources directory inside the asar segment lists
it. -/
def c8CexFs : WinFs :=
  { pathExists := fun p =>
      p == c8CexPath || p == "C:\\yom\\app.asar\\resources",
    accessOk := fun p => p == c8CexPath,
    readdir := fun p =>
      if p == "C:\\yom\\app.asar\\resources" then ["upnpc-static.exe"] else [] }

/-- App context of the C8 counterexample: packaged app whose app directory
lies inside an app.asar segment, with the asar-internal path as the only
candidate. -/
def c8CexCtx : WinAppCtx :=
  { isPackaged := true, exePaths := [c8CexPath], appDir := "C:\\yom\\app.asar" }

/-- C8 counterexample: the candidate list consists of one asar-internal path
that exists on the filesystem; the scan skips it, but the packaged-app
diagnostic returns that same path as available, so the locator does return as
available a candidate path inside an app.asar segment, contradicting the
claim. -/
theorem c8_locator_asar_counterexample :
    c8CexCtx.exePaths = [c8CexPath] ∧
    c8CexFs.pathExists c8CexPath = true ∧
    isAsarPath c8CexPath = true ∧
    scanCandidates c8CexFs c8CexCtx.exePaths = none ∧
    checkWindowsUPnPToolAvailability c8CexFs c8CexCtx =
      { available := true, path := some c8CexPath } := by
  decide

/-- Filesystem of the C8 witness: a clean, accessible candidate. -/
def c8WitFs : WinFs :=
  { pathExists := fun p => p == "C:\\tools\\upnpc-static.exe",
    accessOk := fun p => p == "C:\\tools\\upnpc-static.exe",
    readdir := fun _ => [] }

/-- App context of the C8 witness. -/
def c8WitCtx : WinAppCtx :=
  { isPackaged := false, exePaths := ["C:\\tools\\upnpc-static.exe"],
    appDir := "C:\\tools" }

/-- C8 witness: on a concrete clean candidate the scan returns it, it is
asar-free, and the locator reports it available. -/
theorem c8_locator_asar_safety_witness :
    isAsarPath "C:\\tools\\upnpc-static.exe" = false ∧
    c8WitFs.pathExists "C:\\tools\\upnpc-static.exe" = true ∧
    c8WitFs.accessOk "C:\\tools\\upnpc-static.exe" = true ∧
    checkWindowsUPnPToolAvailability c8WitFs c8WitCtx =
      { available := true, path := some "C:\\tools\\upnpc-static.exe" } :=
  (c8_locator_asar_safety c8WitFs c8WitCtx).1 "C:\\tools\\upnpc-static.exe"
    (by decide)
